import Mathlib

/-!
Shallow embedding of the emotion-sampling core of the repository:
the `FaceApiEmotionDetector` class (src/unnamed/part_000) and the
`useFaceApiEmotionDetection` hook's `processFrame` polling loop
(src/unnamed/part_001).  JavaScript numbers are modelled as `ℚ`,
`undefined`-able values as `Option`, and a JS exception boundary as
`Except`.  The external face-api capability (`faceapi.detectAllFaces …`)
is a black box; its outcome on one call is an explicit argument of type
`Except JsError (List RawDetection)`.
-/

set_option autoImplicit false

deriving instance DecidableEq for Except

/-- An opaque-to-the-code JavaScript exception value. -/
structure JsError where
  message : String
deriving Repr, DecidableEq

/-- Raw per-category expression scores as produced by the external
face-api capability.  A field is `none` when the property is absent
(`undefined`), matching the `|| 0` defaulting at part_000 lines 91-97. -/
structure RawExpressions where
  neutral : Option ℚ
  happy : Option ℚ
  sad : Option ℚ
  angry : Option ℚ
  fearful : Option ℚ
  disgusted : Option ℚ
  surprised : Option ℚ
deriving Repr, DecidableEq

/-- One raw detection of the external capability
(`detectAllFaces(..).withFaceLandmarks().withFaceExpressions().withAgeAndGender()`). -/
structure RawDetection where
  expressions : RawExpressions
  age : Option ℚ
  gender : Option String
deriving Repr, DecidableEq

/-- interface FaceApiEmotionResult (part_000 lines 3-11).  Field order is the
TS object-literal insertion order, which drives `Object.entries`. -/
structure FaceApiEmotionResult where
  neutral : ℚ
  happy : ℚ
  sad : ℚ
  angry : ℚ
  fearful : ℚ
  disgusted : ℚ
  surprised : ℚ
deriving Repr, DecidableEq

/-- interface FaceApiDetectionResult (part_000 lines 13-20).  `age` and
`gender` are optional properties; `dominant` is a raw string label. -/
structure FaceApiDetectionResult where
  emotions : FaceApiEmotionResult
  dominant : String
  confidence : ℚ
  age : Option ℤ
  gender : Option String
  faceDetected : Bool
deriving Repr, DecidableEq

/-- The two private flags of class FaceApiEmotionDetector (part_000 lines 23-24). -/
structure DetectorFlags where
  isInitialized : Bool
  modelsLoaded : Bool
deriving Repr, DecidableEq

/-- Console output events of `detectEmotions` (warn at line 56, log at
line 69, log at line 106, error at line 118). -/
inductive LogEvent where
  | warnNotReady
  | logNoFace
  | logDetected (dominant : String) (confidence : ℚ)
  | errorDetection
deriving Repr, DecidableEq

/-- JS `x || 0` applied to a possibly-`undefined` number. -/
def orZero : Option ℚ → ℚ
  | some x => x
  | none => 0

/-- JS `x || 'unknown'` applied to a possibly-`undefined` string; the empty
string is falsy in JS, so it also falls back to `"unknown"`. -/
def orUnknown : Option String → String
  | some s => if s = "" then "unknown" else s
  | none => "unknown"

/-- JS `Math.round`: round to the nearest integer, halves toward positive
infinity. -/
def jsRound (q : ℚ) : ℤ := ⌊q + 1/2⌋

/-- The no-face result literal (part_000 lines 70-83): neutral scores 1, all
other categories 0, dominant `"neutral"`, confidence 0, `faceDetected`
false, and the `age`/`gender` properties absent. -/
def noFaceResult : FaceApiDetectionResult :=
  { emotions :=
      { neutral := 1, happy := 0, sad := 0, angry := 0,
        fearful := 0, disgusted := 0, surprised := 0 }
    dominant := "neutral"
    confidence := 0
    age := none
    gender := none
    faceDetected := false }

/-- Conversion of the raw expressions into the code's format with `|| 0`
defaults (part_000 lines 90-98). -/
def toEmotions (e : RawExpressions) : FaceApiEmotionResult :=
  { neutral := orZero e.neutral
    happy := orZero e.happy
    sad := orZero e.sad
    angry := orZero e.angry
    fearful := orZero e.fearful
    disgusted := orZero e.disgusted
    surprised := orZero e.surprised }

/-- `Object.entries(emotions)` (part_000 line 101) in the insertion order of
`FaceApiEmotionResult`. -/
def emotionEntries (e : FaceApiEmotionResult) : List (String × ℚ) :=
  [("neutral", e.neutral), ("happy", e.happy), ("sad", e.sad),
   ("angry", e.angry), ("fearful", e.fearful), ("disgusted", e.disgusted),
   ("surprised", e.surprised)]

/-- The body of `emotionEntries.reduce((max, current) => current[1] > max[1]
? current : max)` (part_000 lines 102-104): a left fold whose accumulator is
replaced only on a strictly greater value. -/
def reduceMax : (String × ℚ) → List (String × ℚ) → (String × ℚ)
  | acc, [] => acc
  | acc, c :: cs => reduceMax (if acc.2 < c.2 then c else acc) cs

/-- The `[dominantEmotion, confidence]` pair computed at part_000
lines 101-104: `reduce` without an initial value starts from the first entry
of `Object.entries(emotions)` (never empty here; the `[]` arm is the
unreachable JS `TypeError` case). -/
def findDominant (e : FaceApiEmotionResult) : String × ℚ :=
  match emotionEntries e with
  | [] => ("", 0)
  | a :: rest => reduceMax a rest

/-- `FaceApiEmotionDetector.detectEmotions` (part_000 lines 52-121).  The
outcome of the awaited external `faceapi.detectAllFaces` call is the
argument `cap`; `Except.error` models the external capability throwing.
The first component is the outcome of `detectEmotions` itself — its type is
`Except` so that the absence of an escaping exception is a statement, not a
typing accident — and the second component is the console output. -/
def detectEmotions (flags : DetectorFlags)
    (cap : Except JsError (List RawDetection)) :
    Except JsError (Option FaceApiDetectionResult) × List LogEvent :=
  if !flags.isInitialized || !flags.modelsLoaded then
    (Except.ok none, [LogEvent.warnNotReady])
  else
    match cap with
    | Except.error _ => (Except.ok none, [LogEvent.errorDetection])
    | Except.ok detections =>
      match detections with
      | [] => (Except.ok (some noFaceResult), [LogEvent.logNoFace])
      | d :: _ =>
        let emotions := toEmotions d.expressions
        let dc := findDominant emotions
        (Except.ok (some
          { emotions := emotions
            dominant := dc.1
            confidence := dc.2
            age := some (jsRound (orZero d.age))
            gender := some (orUnknown d.gender)
            faceDetected := true }),
         [LogEvent.logDetected dc.1 dc.2])

/-- The synchronous entry segment of `FaceApiEmotionDetector`'s async init
method (part_000 lines 26-35), up to the first `await`: when `isInitialized`
is already set it returns at once without starting a network load; otherwise
it starts the `Promise.all` load of the five models.  Neither flag is
modified before the awaited load completes, so the flags after the entry are
unchanged.  The boolean is whether a new network load was started. -/
def initEntry (flags : DetectorFlags) : DetectorFlags × Bool :=
  if flags.isInitialized then (flags, false) else (flags, true)

/-- The resumption of the init method after the awaited `Promise.all` load
settles (part_000 lines 43-49): on success both flags are set; on failure the
flags are left unchanged and the error is re-thrown to the caller. -/
def initResume (_flags : DetectorFlags) (loadOutcome : Except JsError Unit) :
    Except JsError DetectorFlags :=
  match loadOutcome with
  | Except.ok _ => Except.ok { isInitialized := true, modelsLoaded := true }
  | Except.error e => Except.error e

/-- `dispose` (part_000 lines 123-126). -/
def dispose (_flags : DetectorFlags) : DetectorFlags :=
  { isInitialized := false, modelsLoaded := false }

/-- The synchronous entry of the hook's `initializeDetector` callback
(part_001 lines 38-51): when a detector instance already exists
(`detectorRef.current` non-null) the call returns at once — it neither
creates an instance, starts a load, nor awaits the in-flight attempt.
Otherwise it synchronously stores a fresh instance (both flags false) in the
ref and invokes the instance's init method.  Returns the detector-present
flag and detector flags after the entry, and whether the init method was
invoked. -/
def initDetectorEntry (detectorPresent : Bool) (flags : DetectorFlags) :
    Bool × DetectorFlags × Bool :=
  if detectorPresent then (true, flags, false)
  else (true, { isInitialized := false, modelsLoaded := false }, true)

/-- The published emotion-score record of `EmotionState` (key set and order
from the hook's initial state, part_001 lines 12-20, and the publish at
lines 86-94; note the key `disgust`, unlike the raw key `disgusted`). -/
structure EmotionScores where
  neutral : ℚ
  happy : ℚ
  sad : ℚ
  angry : ℚ
  surprised : ℚ
  fearful : ℚ
  disgust : ℚ
deriving Repr, DecidableEq

/-- The published `EmotionState` snapshot (shape from part_001 lines 9-22 and
83-97).  The initial state carries no `timestamp` property, hence `Option`. -/
structure EmotionState where
  dominant : String
  confidence : ℚ
  scores : EmotionScores
  icon : String
  timestamp : Option ℤ
deriving Repr, DecidableEq

/-- The published `additionalData` bundle (part_001 lines 24-30, 100-104). -/
structure AdditionalData where
  age : Option ℤ
  gender : Option String
  faceDetected : Bool
deriving Repr, DecidableEq

/-- JS property read `scores[name]` on the published score record; `none`
models `undefined` for a key that is not in the record. -/
def scoresGet (s : EmotionScores) (name : String) : Option ℚ :=
  if name = "neutral" then some s.neutral
  else if name = "happy" then some s.happy
  else if name = "sad" then some s.sad
  else if name = "angry" then some s.angry
  else if name = "surprised" then some s.surprised
  else if name = "fearful" then some s.fearful
  else if name = "disgust" then some s.disgust
  else none

/-- `getEmotionIcon` (part_001 lines 120-131): lookup in the icon record,
falling back to the neutral icon for a key not in the record. -/
def getEmotionIcon (emotion : String) : String :=
  if emotion = "happy" then "😊"
  else if emotion = "sad" then "😢"
  else if emotion = "angry" then "😡"
  else if emotion = "surprised" then "😲"
  else if emotion = "fearful" then "😨"
  else if emotion = "disgusted" then "🤢"
  else if emotion = "neutral" then "😐"
  else "😐"

/-- The hook's initial `EmotionState` (part_001 lines 9-22). -/
def initialEmotionState : EmotionState :=
  { dominant := "neutral"
    confidence := 0
    scores :=
      { neutral := 1, happy := 0, sad := 0, angry := 0,
        surprised := 0, fearful := 0, disgust := 0 }
    icon := "😐"
    timestamp := none }

/-- The `EmotionState` built and published by `processFrame` from a non-null
detection result (part_001 lines 83-97): the raw `dominant` label and the
`confidence` are copied through unchanged, the scores are copied field by
field with the raw `disgusted` score stored under the key `disgust`, the
icon is looked up from the raw label, and the publish time is recorded. -/
def toEmotionState (r : FaceApiDetectionResult) (wallClock : ℤ) : EmotionState :=
  { dominant := r.dominant
    confidence := r.confidence
    scores :=
      { neutral := r.emotions.neutral, happy := r.emotions.happy,
        sad := r.emotions.sad, angry := r.emotions.angry,
        surprised := r.emotions.surprised, fearful := r.emotions.fearful,
        disgust := r.emotions.disgusted }
    icon := getEmotionIcon r.dominant
    timestamp := some wallClock }

/-- The video element fields read by `processFrame` (part_001 line 62). -/
structure VideoElement where
  readyState : ℕ
  videoWidth : ℕ
  videoHeight : ℕ
deriving Repr, DecidableEq

/-- The hook's mutable cells as read and written by one tick of
`processFrame`: the two published state pieces, the `isInitialized` state,
whether `detectorRef.current` is non-null together with that detector's
flags, and `lastProcessTimeRef`. -/
structure HookState where
  emotionState : EmotionState
  additionalData : AdditionalData
  isInitialized : Bool
  detectorPresent : Bool
  detectorFlags : DetectorFlags
  lastProcessTime : ℤ
deriving Repr, DecidableEq

/-- Observable outcome of one scheduling tick of `processFrame`:
the hook state afterwards, whether `detectEmotions` was invoked
(`didDetect`), whether `requestAnimationFrame(processFrame)` was called to
schedule another tick (`scheduled`), and whether
`setEmotionState`/`setAdditionalData` ran (`published`). -/
structure TickResult where
  state : HookState
  didDetect : Bool
  scheduled : Bool
  published : Bool
deriving Repr, DecidableEq

/-- One scheduling tick of `processFrame` (part_001 lines 54-117).
Arguments: the hook's `isActive` flag, `videoRef.current` (`none` = null),
the hook state, `performance.now()` at this tick, `Date.now()` at this tick,
and the outcome of the external capability call this tick would make.
Mirrors the source exactly: the guard at line 55 and the video-readiness
check at lines 62-64 both return without rescheduling; the throttle branch
at lines 69-74 reschedules without detecting; otherwise
`lastProcessTimeRef` is set (line 76) before `detectEmotions` is awaited
(line 79), a non-null result is published (lines 81-104), an exception from
the awaited call would be caught (lines 109-111), and the tick reschedules
when `isActive` (lines 114-116). -/
def processFrame (isActive : Bool) (video : Option VideoElement)
    (s : HookState) (now : ℤ) (wallClock : ℤ)
    (cap : Except JsError (List RawDetection)) : TickResult :=
  match video with
  | none => { state := s, didDetect := false, scheduled := false, published := false }
  | some v =>
    if !isActive || !s.detectorPresent || !s.isInitialized then
      { state := s, didDetect := false, scheduled := false, published := false }
    else if v.readyState ≠ 4 || v.videoWidth = 0 || v.videoHeight = 0 then
      { state := s, didDetect := false, scheduled := false, published := false }
    else if now - s.lastProcessTime < 333 then
      { state := s, didDetect := false, scheduled := isActive, published := false }
    else
      let s1 : HookState := { s with lastProcessTime := now }
      match (detectEmotions s.detectorFlags cap).1 with
      | Except.ok (some result) =>
        { state :=
            { s1 with
              emotionState := toEmotionState result wallClock
              additionalData :=
                { age := result.age
                  gender := result.gender
                  faceDetected := result.faceDetected } }
          didDetect := true
          scheduled := isActive
          published := true }
      | Except.ok none =>
        { state := s1, didDetect := true, scheduled := isActive, published := false }
      | Except.error _ =>
        { state := s1, didDetect := true, scheduled := isActive, published := false }

/-- Repeated driving of `processFrame` over a list of `performance.now()`
tick times, with a fixed active flag, video element and per-call capability
outcome; collects the times of the ticks that invoked a detection. -/
def detectionTimes (video : Option VideoElement)
    (cap : Except JsError (List RawDetection)) :
    HookState → List ℤ → List ℤ
  | _, [] => []
  | s, t :: ts =>
    let r := processFrame true video s t t cap
    if r.didDetect then t :: detectionTimes video cap r.state ts
    else detectionTimes video cap r.state ts

/-- Membership in the closed EmotionCategory set of the spec's data model
(exactly the seven keys of the published score record). -/
def isEmotionCategory (name : String) : Bool :=
  name = "neutral" || name = "happy" || name = "sad" || name = "angry" ||
  name = "surprised" || name = "fearful" || name = "disgust"

/-- The key of the published score record under which `processFrame` stores
the score of a raw category label: the raw `"disgusted"` score is stored
under `"disgust"` (part_001 line 93); every other raw label keeps its name
(part_001 lines 87-92).  This rename is applied to the score record only;
the `dominant` field itself is copied raw (part_001 line 84). -/
def normalizeLabel (raw : String) : String :=
  if raw = "disgusted" then "disgust" else raw

/-- A decodable video element for concrete runs. -/
def exVideo : VideoElement := { readyState := 4, videoWidth := 640, videoHeight := 480 }

/-- A ready hook state for concrete runs: detector present and loaded,
initial published state, last process time 0. -/
def exReadyState : HookState :=
  { emotionState := initialEmotionState
    additionalData := { age := none, gender := none, faceDetected := false }
    isInitialized := true
    detectorPresent := true
    detectorFlags := { isInitialized := true, modelsLoaded := true }
    lastProcessTime := 0 }

/-- The tick outcome when the ready loop samples and the external capability
reports no face (empty detection list). -/
def noFaceTick : TickResult :=
  processFrame true (some exVideo) exReadyState 1000 1000 (Except.ok [])

/-- A raw detection whose strongest expression is `disgusted`. -/
def exDisgustDetection : RawDetection :=
  { expressions :=
      { neutral := some 0, happy := some 0, sad := some 0, angry := some 0,
        fearful := some 0, disgusted := some 1, surprised := some 0 }
    age := none
    gender := some "male" }

/-- The tick outcome when the ready loop samples and the external capability
reports one face dominated by the raw `disgusted` expression. -/
def disgustTick : TickResult :=
  processFrame true (some exVideo) exReadyState 1000 1000
    (Except.ok [exDisgustDetection])

/-- A raw detection carrying an age estimate and an empty-string gender (the
empty string is falsy in JS, so the code falls back to `"unknown"`). -/
def exAgeDetection : RawDetection :=
  { expressions :=
      { neutral := some 0, happy := some 1, sad := some 0, angry := some 0,
        fearful := some 0, disgusted := some 0, surprised := some 0 }
    age := some 25
    gender := some "" }

/-- The detection result `detectEmotions` builds from `exAgeDetection`. -/
def exFaceResult : FaceApiDetectionResult :=
  { emotions := toEmotions exAgeDetection.expressions
    dominant := (findDominant (toEmotions exAgeDetection.expressions)).1
    confidence := (findDominant (toEmotions exAgeDetection.expressions)).2
    age := some (jsRound (orZero exAgeDetection.age))
    gender := some (orUnknown exAgeDetection.gender)
    faceDetected := true }

/-- A raw detection whose age estimate is negative: nothing in the code
rules this out, since the external capability is a black box and
`Math.round(detection.age || 0)` is applied without clamping. -/
def exNegAgeDetection : RawDetection :=
  { expressions :=
      { neutral := some 0, happy := some 1, sad := some 0, angry := some 0,
        fearful := some 0, disgusted := some 0, surprised := some 0 }
    age := some (-5)
    gender := some "male" }

/-- The detection result `detectEmotions` builds from `exNegAgeDetection`. -/
def exNegAgeResult : FaceApiDetectionResult :=
  { emotions := toEmotions exNegAgeDetection.expressions
    dominant := (findDominant (toEmotions exNegAgeDetection.expressions)).1
    confidence := (findDominant (toEmotions exNegAgeDetection.expressions)).2
    age := some (jsRound (orZero exNegAgeDetection.age))
    gender := some (orUnknown exNegAgeDetection.gender)
    faceDetected := true }

theorem reduceMax_le (cs : List (String × ℚ)) : ∀ acc : String × ℚ,
    acc.2 ≤ (reduceMax acc cs).2 ∧ ∀ p ∈ cs, p.2 ≤ (reduceMax acc cs).2 := by
  induction cs with
  | nil =>
    intro acc
    refine ⟨le_refl _, ?_⟩
    intro p hp
    exact absurd hp (List.not_mem_nil p)
  | cons c cs ih =>
    intro acc
    have hstep : reduceMax acc (c :: cs) = reduceMax (if acc.2 < c.2 then c else acc) cs := rfl
    by_cases h : acc.2 < c.2
    · rw [hstep, if_pos h]
      refine ⟨le_trans (le_of_lt h) (ih c).1, ?_⟩
      intro p hp
      rcases List.mem_cons.mp hp with heq | hp
      · rw [heq]; exact (ih c).1
      · exact (ih c).2 p hp
    · rw [hstep, if_neg h]
      refine ⟨(ih acc).1, ?_⟩
      intro p hp
      rcases List.mem_cons.mp hp with heq | hp
      · rw [heq]; exact le_trans (le_of_not_lt h) (ih acc).1
      · exact (ih acc).2 p hp

theorem reduceMax_mem (cs : List (String × ℚ)) : ∀ acc : String × ℚ,
    reduceMax acc cs = acc ∨ reduceMax acc cs ∈ cs := by
  induction cs with
  | nil => intro acc; exact Or.inl rfl
  | cons c cs ih =>
    intro acc
    have hstep : reduceMax acc (c :: cs) = reduceMax (if acc.2 < c.2 then c else acc) cs := rfl
    by_cases h : acc.2 < c.2
    · rw [hstep, if_pos h]
      rcases ih c with h1 | h1
      · exact Or.inr (by rw [h1]; exact List.mem_cons_self c cs)
      · exact Or.inr (List.mem_cons_of_mem c h1)
    · rw [hstep, if_neg h]
      rcases ih acc with h1 | h1
      · exact Or.inl h1
      · exact Or.inr (List.mem_cons_of_mem c h1)

theorem reduceMax_find (cs : List (String × ℚ)) : ∀ acc : String × ℚ,
    (acc :: cs).find? (fun p => decide ((reduceMax acc cs).2 ≤ p.2)) =
      some (reduceMax acc cs) := by
  induction cs with
  | nil =>
    intro acc
    simp [reduceMax, List.find?]
  | cons c cs ih =>
    intro acc
    have hstep : reduceMax acc (c :: cs) = reduceMax (if acc.2 < c.2 then c else acc) cs := rfl
    by_cases h : acc.2 < c.2
    · rw [hstep, if_pos h]
      have hlt : acc.2 < (reduceMax c cs).2 := lt_of_lt_of_le h (reduceMax_le cs c).1
      rw [List.find?_cons_of_neg _ (by simpa using not_le.mpr hlt)]
      exact ih c
    · rw [hstep, if_neg h]
      by_cases hacc : (reduceMax acc cs).2 ≤ acc.2
      · have h1 := ih acc
        rw [List.find?_cons_of_pos _ (by simpa using hacc)] at h1
        rw [List.find?_cons_of_pos _ (by simpa using hacc)]
        exact h1
      · have h1 := ih acc
        rw [List.find?_cons_of_neg _ (by simpa using hacc)] at h1
        have hc : c.2 < (reduceMax acc cs).2 :=
          lt_of_le_of_lt (le_of_not_lt h) (lt_of_not_le hacc)
        rw [List.find?_cons_of_neg _ (by simpa using hacc),
          List.find?_cons_of_neg _ (by simpa using not_le.mpr hc)]
        exact h1

theorem findDominant_def (e : FaceApiEmotionResult) :
    findDominant e = reduceMax ("neutral", e.neutral)
      [("happy", e.happy), ("sad", e.sad), ("angry", e.angry),
       ("fearful", e.fearful), ("disgusted", e.disgusted),
       ("surprised", e.surprised)] := rfl

theorem findDominant_mem (e : FaceApiEmotionResult) :
    findDominant e ∈ emotionEntries e := by
  rw [findDominant_def]
  rcases reduceMax_mem
      [("happy", e.happy), ("sad", e.sad), ("angry", e.angry),
       ("fearful", e.fearful), ("disgusted", e.disgusted),
       ("surprised", e.surprised)] ("neutral", e.neutral) with h | h
  · rw [h]; exact List.mem_cons_self _ _
  · exact List.mem_cons_of_mem _ h

theorem findDominant_cases (e : FaceApiEmotionResult) :
    findDominant e = ("neutral", e.neutral) ∨ findDominant e = ("happy", e.happy) ∨
    findDominant e = ("sad", e.sad) ∨ findDominant e = ("angry", e.angry) ∨
    findDominant e = ("fearful", e.fearful) ∨
    findDominant e = ("disgusted", e.disgusted) ∨
    findDominant e = ("surprised", e.surprised) := by
  have h := findDominant_mem e
  simpa [emotionEntries] using h

theorem findDominant_ge (e : FaceApiEmotionResult) :
    ∀ p ∈ emotionEntries e, p.2 ≤ (findDominant e).2 := by
  intro p hp
  rw [findDominant_def]
  have h := reduceMax_le
      [("happy", e.happy), ("sad", e.sad), ("angry", e.angry),
       ("fearful", e.fearful), ("disgusted", e.disgusted),
       ("surprised", e.surprised)] ("neutral", e.neutral)
  rcases List.mem_cons.mp hp with heq | hp
  · rw [heq]; exact h.1
  · exact h.2 p hp

theorem findDominant_le (e : FaceApiEmotionResult) :
    e.neutral ≤ (findDominant e).2 ∧ e.happy ≤ (findDominant e).2 ∧
    e.sad ≤ (findDominant e).2 ∧ e.angry ≤ (findDominant e).2 ∧
    e.fearful ≤ (findDominant e).2 ∧ e.disgusted ≤ (findDominant e).2 ∧
    e.surprised ≤ (findDominant e).2 := by
  have h := findDominant_ge e
  have h1 := h ("neutral", e.neutral) (by simp [emotionEntries])
  have h2 := h ("happy", e.happy) (by simp [emotionEntries])
  have h3 := h ("sad", e.sad) (by simp [emotionEntries])
  have h4 := h ("angry", e.angry) (by simp [emotionEntries])
  have h5 := h ("fearful", e.fearful) (by simp [emotionEntries])
  have h6 := h ("disgusted", e.disgusted) (by simp [emotionEntries])
  have h7 := h ("surprised", e.surprised) (by simp [emotionEntries])
  exact ⟨h1, h2, h3, h4, h5, h6, h7⟩

theorem findDominant_find (e : FaceApiEmotionResult) :
    (emotionEntries e).find? (fun p => decide ((findDominant e).2 ≤ p.2)) =
      some (findDominant e) := by
  have h := reduceMax_find
      [("happy", e.happy), ("sad", e.sad), ("angry", e.angry),
       ("fearful", e.fearful), ("disgusted", e.disgusted),
       ("surprised", e.surprised)] ("neutral", e.neutral)
  simpa [emotionEntries, findDominant_def] using h

theorem scoresGet_isSome (sc : EmotionScores) (name : String) :
    (scoresGet sc name).isSome = true ↔ isEmotionCategory name = true := by
  simp only [scoresGet, isEmotionCategory]
  split_ifs with h1 h2 h3 h4 h5 h6 h7 <;> simp_all

theorem detectEmotions_ok_some (flags : DetectorFlags)
    (cap : Except JsError (List RawDetection)) (r : FaceApiDetectionResult)
    (h : (detectEmotions flags cap).1 = Except.ok (some r)) :
    r = noFaceResult ∨
    ∃ d l, cap = Except.ok (d :: l) ∧
      r = { emotions := toEmotions d.expressions
            dominant := (findDominant (toEmotions d.expressions)).1
            confidence := (findDominant (toEmotions d.expressions)).2
            age := some (jsRound (orZero d.age))
            gender := some (orUnknown d.gender)
            faceDetected := true } := by
  rcases flags with ⟨i, m⟩
  cases i
  · simp [detectEmotions] at h
  · cases m
    · simp [detectEmotions] at h
    · rcases cap with e | dets
      · simp [detectEmotions] at h
      · rcases dets with _ | ⟨d, l⟩
        · left
          have h2 : noFaceResult = r := by simpa [detectEmotions] using h
          exact h2.symm
        · right
          refine ⟨d, l, rfl, ?_⟩
          have h2 := h
          simp [detectEmotions] at h2
          exact h2.symm

theorem processFrame_skip_throttle (s : HookState) (v : VideoElement)
    (now wallClock : ℤ) (cap : Except JsError (List RawDetection))
    (hp : s.detectorPresent = true) (hi : s.isInitialized = true)
    (hv4 : v.readyState = 4) (hw : v.videoWidth ≠ 0) (hh : v.videoHeight ≠ 0)
    (hlt : now - s.lastProcessTime < 333) :
    processFrame true (some v) s now wallClock cap =
      { state := s, didDetect := false, scheduled := true, published := false } := by
  simp [processFrame, hp, hi, hv4, hw, hh, hlt]

/-- C4: on a scheduling tick where the loop is active, the detector is
present and initialized, but the video frame is not yet decodable
(`readyState` not 4, or a zero dimension), `processFrame` performs no
detection work — and returns WITHOUT scheduling the next tick
(`scheduled = false`): the early return at part_001 lines 62-64 has no
`requestAnimationFrame` call, so the loop stalls, contrary to the claim
that the tick still schedules the next tick. -/
theorem processFrame_not_decodable (s : HookState) (v : VideoElement)
    (now wallClock : ℤ) (cap : Except JsError (List RawDetection))
    (hv : v.readyState ≠ 4 ∨ v.videoWidth = 0 ∨ v.videoHeight = 0) :
    processFrame true (some v) s now wallClock cap =
      { state := s, didDetect := false, scheduled := false, published := false } := by
  rcases hv with hv | hv | hv <;>
    by_cases hp : s.detectorPresent <;> by_cases hi : s.isInitialized <;>
      simp [processFrame, hp, hi, hv]

theorem processFrame_detect_none (s : HookState) (v : VideoElement)
    (now wallClock : ℤ) (cap : Except JsError (List RawDetection))
    (hp : s.detectorPresent = true) (hi : s.isInitialized = true)
    (hv4 : v.readyState = 4) (hw : v.videoWidth ≠ 0) (hh : v.videoHeight ≠ 0)
    (hge : 333 ≤ now - s.lastProcessTime)
    (hD : (detectEmotions s.detectorFlags cap).1 = Except.ok none) :
    processFrame true (some v) s now wallClock cap =
      { state := { s with lastProcessTime := now },
        didDetect := true, scheduled := true, published := false } := by
  have hnlt : ¬ (now - s.lastProcessTime < 333) := not_lt.mpr hge
  simp [processFrame, hp, hi, hv4, hw, hh, hnlt, hD]

theorem processFrame_detect_some (s : HookState) (v : VideoElement)
    (now wallClock : ℤ) (cap : Except JsError (List RawDetection))
    (r : FaceApiDetectionResult)
    (hp : s.detectorPresent = true) (hi : s.isInitialized = true)
    (hv4 : v.readyState = 4) (hw : v.videoWidth ≠ 0) (hh : v.videoHeight ≠ 0)
    (hge : 333 ≤ now - s.lastProcessTime)
    (hD : (detectEmotions s.detectorFlags cap).1 = Except.ok (some r)) :
    processFrame true (some v) s now wallClock cap =
      { state :=
          { s with
            lastProcessTime := now
            emotionState := toEmotionState r wallClock
            additionalData :=
              { age := r.age, gender := r.gender, faceDetected := r.faceDetected } },
        didDetect := true, scheduled := true, published := true } := by
  have hnlt : ¬ (now - s.lastProcessTime < 333) := not_lt.mpr hge
  simp [processFrame, hp, hi, hv4, hw, hh, hnlt, hD]

theorem processFrame_published_inv (isActive : Bool) (video : Option VideoElement)
    (s : HookState) (now wallClock : ℤ)
    (cap : Except JsError (List RawDetection))
    (hpub : (processFrame isActive video s now wallClock cap).published = true) :
    ∃ r, (detectEmotions s.detectorFlags cap).1 = Except.ok (some r) ∧
      (processFrame isActive video s now wallClock cap).state.emotionState =
        toEmotionState r wallClock ∧
      (processFrame isActive video s now wallClock cap).state.additionalData =
        { age := r.age, gender := r.gender, faceDetected := r.faceDetected } := by
  rcases video with _ | v
  · simp [processFrame] at hpub
  · by_cases c1 : (!isActive || !s.detectorPresent || !s.isInitialized) = true
    · simp [processFrame, c1] at hpub
    · rw [Bool.not_eq_true] at c1
      by_cases c2 : (v.readyState ≠ 4 ∨ v.videoWidth = 0 ∨ v.videoHeight = 0)
      · rcases c2 with hv | hv | hv <;> simp [processFrame, c1, hv] at hpub
      · push_neg at c2
        obtain ⟨hv4, hw, hh⟩ := c2
        by_cases c3 : now - s.lastProcessTime < 333
        · simp [processFrame, c1, hv4, hw, hh, c3] at hpub
        · cases hD : (detectEmotions s.detectorFlags cap).1 with
          | error e => simp [processFrame, c1, hv4, hw, hh, c3, hD] at hpub
          | ok o =>
            cases o with
            | none => simp [processFrame, c1, hv4, hw, hh, c3, hD] at hpub
            | some r =>
              refine ⟨r, rfl, ?_, ?_⟩ <;>
                simp [processFrame, c1, hv4, hw, hh, c3, hD]

theorem processFrame_preserves_ready (isActive : Bool) (video : Option VideoElement)
    (s : HookState) (now wallClock : ℤ) (cap : Except JsError (List RawDetection)) :
    (processFrame isActive video s now wallClock cap).state.detectorPresent = s.detectorPresent ∧
    (processFrame isActive video s now wallClock cap).state.isInitialized = s.isInitialized ∧
    (processFrame isActive video s now wallClock cap).state.detectorFlags = s.detectorFlags := by
  rcases video with _ | v
  · simp [processFrame]
  · simp only [processFrame]
    split
    · simp
    · split
      · simp
      · split
        · simp
        · split <;> simp

theorem processFrame_throttle_char (s : HookState) (v : VideoElement) (t : ℤ)
    (cap : Except JsError (List RawDetection))
    (hp : s.detectorPresent = true) (hi : s.isInitialized = true)
    (hv4 : v.readyState = 4) (hw : v.videoWidth ≠ 0) (hh : v.videoHeight ≠ 0) :
    (processFrame true (some v) s t t cap).didDetect =
      decide (333 ≤ t - s.lastProcessTime) ∧
    (processFrame true (some v) s t t cap).state.lastProcessTime =
      (if 333 ≤ t - s.lastProcessTime then t else s.lastProcessTime) := by
  by_cases ht : 333 ≤ t - s.lastProcessTime
  · have hnlt : ¬ (t - s.lastProcessTime < 333) := not_lt.mpr ht
    rcases hD : (detectEmotions s.detectorFlags cap).1 with e | o
    · simp [processFrame, hp, hi, hv4, hw, hh, hnlt, hD, ht]
    · rcases o with _ | r <;> simp [processFrame, hp, hi, hv4, hw, hh, hnlt, hD, ht]
  · have hlt : t - s.lastProcessTime < 333 := lt_of_not_le ht
    simp [processFrame, hp, hi, hv4, hw, hh, hlt, ht]

theorem detectionTimes_ge (v : VideoElement)
    (cap : Except JsError (List RawDetection))
    (hv4 : v.readyState = 4) (hw : v.videoWidth ≠ 0) (hh : v.videoHeight ≠ 0) :
    ∀ (ts : List ℤ) (s : HookState),
      s.detectorPresent = true → s.isInitialized = true →
      ∀ x ∈ detectionTimes (some v) cap s ts, s.lastProcessTime + 333 ≤ x := by
  intro ts
  induction ts with
  | nil => intro s hp hi x hx; simp [detectionTimes] at hx
  | cons t ts ih =>
    intro s hp hi x hx
    have hchar := processFrame_throttle_char s v t cap hp hi hv4 hw hh
    have hpres := processFrame_preserves_ready true (some v) s t t cap
    simp only [detectionTimes] at hx
    by_cases ht : 333 ≤ t - s.lastProcessTime
    · rw [if_pos (by rw [hchar.1]; simpa using ht)] at hx
      have hlast : (processFrame true (some v) s t t cap).state.lastProcessTime = t := by
        rw [hchar.2, if_pos ht]
      rcases List.mem_cons.mp hx with heq | hx
      · rw [heq]; omega
      · have hrec := ih (processFrame true (some v) s t t cap).state
          (by rw [hpres.1]; exact hp) (by rw [hpres.2.1]; exact hi) x hx
        rw [hlast] at hrec
        omega
    · rw [if_neg (by rw [hchar.1]; simpa using ht)] at hx
      have hskip := processFrame_skip_throttle s v t t cap hp hi hv4 hw hh (lt_of_not_le ht)
      rw [hskip] at hx
      exact ih s hp hi x hx

theorem detectionTimes_chain (v : VideoElement)
    (cap : Except JsError (List RawDetection))
    (hv4 : v.readyState = 4) (hw : v.videoWidth ≠ 0) (hh : v.videoHeight ≠ 0) :
    ∀ (ts : List ℤ) (s : HookState),
      s.detectorPresent = true → s.isInitialized = true →
      List.Chain' (fun a b : ℤ => a + 333 ≤ b) (detectionTimes (some v) cap s ts) := by
  intro ts
  induction ts with
  | nil => intro s hp hi; simp [detectionTimes]
  | cons t ts ih =>
    intro s hp hi
    have hchar := processFrame_throttle_char s v t cap hp hi hv4 hw hh
    have hpres := processFrame_preserves_ready true (some v) s t t cap
    simp only [detectionTimes]
    by_cases ht : 333 ≤ t - s.lastProcessTime
    · rw [if_pos (by rw [hchar.1]; simpa using ht)]
      have hp2 : (processFrame true (some v) s t t cap).state.detectorPresent = true := by
        rw [hpres.1]; exact hp
      have hi2 : (processFrame true (some v) s t t cap).state.isInitialized = true := by
        rw [hpres.2.1]; exact hi
      have hlast : (processFrame true (some v) s t t cap).state.lastProcessTime = t := by
        rw [hchar.2, if_pos ht]
      rw [List.chain'_cons']
      refine ⟨?_, ih _ hp2 hi2⟩
      intro b hb
      have hb2 : b ∈ detectionTimes (some v) cap
          (processFrame true (some v) s t t cap).state ts :=
        List.mem_of_mem_head? hb
      have := detectionTimes_ge v cap hv4 hw hh ts _ hp2 hi2 b hb2
      rw [hlast] at this
      omega
    · rw [if_neg (by rw [hchar.1]; simpa using ht)]
      have hskip := processFrame_skip_throttle s v t t cap hp hi hv4 hw hh (lt_of_not_le ht)
      rw [hskip]
      exact ih s hp hi

theorem detectionTimes_subset (v : Option VideoElement)
    (cap : Except JsError (List RawDetection)) :
    ∀ (ts : List ℤ) (s : HookState), ∀ x ∈ detectionTimes v cap s ts, x ∈ ts := by
  intro ts
  induction ts with
  | nil => intro s x hx; simp [detectionTimes] at hx
  | cons t ts ih =>
    intro s x hx
    simp only [detectionTimes] at hx
    by_cases hd : (processFrame true v s t t cap).didDetect = true
    · rw [if_pos hd] at hx
      rcases List.mem_cons.mp hx with heq | hx
      · rw [heq]; exact List.mem_cons_self _ _
      · exact List.mem_cons_of_mem _ (ih _ x hx)
    · rw [if_neg hd] at hx
      exact List.mem_cons_of_mem _ (ih _ x hx)

theorem chain_apart_last : ∀ (l : List ℤ) (x : ℤ),
    List.Chain' (fun a b : ℤ => a + 333 ≤ b) (x :: l) →
    x + 333 * (l.length : ℤ) ≤ (x :: l).getLast (List.cons_ne_nil x l) := by
  intro l
  induction l with
  | nil => intro x _; simp
  | cons y l ih =>
    intro x hc
    rw [List.chain'_cons] at hc
    have h1 := ih y hc.2
    rw [List.getLast_cons (List.cons_ne_nil y l)]
    have h2 := hc.1
    simp only [List.length_cons]
    push_cast
    push_cast at h1
    omega

theorem chain_apart_length (l : List ℤ) (a : ℤ)
    (hc : List.Chain' (fun x y : ℤ => x + 333 ≤ y) l)
    (hmem : ∀ x ∈ l, a ≤ x ∧ x ≤ a + 1000) : l.length ≤ 4 := by
  rcases l with _ | ⟨x, l⟩
  · simp
  · have hlast := chain_apart_last l x hc
    have hx := hmem x (List.mem_cons_self x l)
    have hl := hmem ((x :: l).getLast (List.cons_ne_nil x l))
      (List.getLast_mem (List.cons_ne_nil x l))
    simp only [List.length_cons]
    omega

theorem orUnknown_ne_empty (g : Option String) : orUnknown g ≠ "" := by
  rcases g with _ | s
  · simp [orUnknown]
  · simp only [orUnknown]
    split_ifs with h
    · simp
    · exact h

theorem jsRound_nonneg (q : ℚ) (hq : 0 ≤ q) : 0 ≤ jsRound q := by
  rw [jsRound]
  apply Int.floor_nonneg.mpr
  linarith

theorem orZero_nonneg (x : Option ℚ) (hx : ∀ q ∈ x, (0:ℚ) ≤ q) : 0 ≤ orZero x := by
  rcases x with _ | q
  · simp [orZero]
  · simpa [orZero] using hx q rfl

theorem published_emotion_facts (flags : DetectorFlags)
    (cap : Except JsError (List RawDetection)) (r : FaceApiDetectionResult)
    (wallClock : ℤ)
    (hok : (detectEmotions flags cap).1 = Except.ok (some r)) :
    ∃ m : ℚ,
      scoresGet (toEmotionState r wallClock).scores
        (normalizeLabel (toEmotionState r wallClock).dominant) = some m ∧
      (∀ name q, scoresGet (toEmotionState r wallClock).scores name = some q → q ≤ m) ∧
      (r.faceDetected = true → (toEmotionState r wallClock).confidence = m) ∧
      (r.faceDetected = false → (toEmotionState r wallClock).confidence = 0 ∧
        (toEmotionState r wallClock).dominant = "neutral" ∧ m = 1) ∧
      isEmotionCategory (normalizeLabel (toEmotionState r wallClock).dominant) = true ∧
      (isEmotionCategory (toEmotionState r wallClock).dominant = false ↔
        (toEmotionState r wallClock).dominant = "disgusted") := by
  rcases detectEmotions_ok_some flags cap r hok with hno | ⟨d, l2, hcap, hface⟩
  · subst hno
    refine ⟨1, rfl, ?_, ?_, ?_,
      by simp [toEmotionState, noFaceResult, normalizeLabel, isEmotionCategory],
      by simp [toEmotionState, noFaceResult, isEmotionCategory]⟩
    · intro name q hq
      simp only [toEmotionState, noFaceResult, scoresGet] at hq
      split_ifs at hq <;> injection hq with h2 <;> subst h2 <;> norm_num
    · intro h
      exact absurd h (by decide)
    · intro _
      exact ⟨rfl, rfl, rfl⟩
  · subst hface
    refine ⟨(findDominant (toEmotions d.expressions)).2, ?_, ?_, ?_, ?_, ?_, ?_⟩
    · rcases findDominant_cases (toEmotions d.expressions) with h|h|h|h|h|h|h <;>
        simp [toEmotionState, scoresGet, normalizeLabel, h]
    · obtain ⟨g1, g2, g3, g4, g5, g6, g7⟩ := findDominant_le (toEmotions d.expressions)
      intro name q hq
      simp only [toEmotionState, scoresGet] at hq
      split_ifs at hq <;> injection hq with h2 <;> subst h2 <;>
        first
        | exact g1 | exact g2 | exact g3 | exact g4
        | exact g5 | exact g6 | exact g7
    · intro _
      rfl
    · intro h
      simp [toEmotionState] at h
    · rcases findDominant_cases (toEmotions d.expressions) with h|h|h|h|h|h|h <;>
        simp [toEmotionState, normalizeLabel, isEmotionCategory, h]
    · rcases findDominant_cases (toEmotions d.expressions) with h|h|h|h|h|h|h <;>
        simp [toEmotionState, normalizeLabel, isEmotionCategory, h]

/-- C4 witness: a concrete stalled tick — active, ready detector, video with
`readyState = 2`: the tick does nothing and does not reschedule. -/
theorem processFrame_not_decodable_witness :
    processFrame true (some { readyState := 2, videoWidth := 640, videoHeight := 480 })
      exReadyState 1000 1000 (Except.ok []) =
      { state := exReadyState, didDetect := false, scheduled := false,
        published := false } :=
  processFrame_not_decodable exReadyState
    { readyState := 2, videoWidth := 640, videoHeight := 480 }
    1000 1000 (Except.ok []) (by decide)

/-- C3: for every detection call made with the detector ready in which the
external capability finds no face (empty detection list), the returned
DetectionResult has emotions = neutral 1 with every other category 0,
dominant = "neutral", confidence = 0, faceDetected = false, and the age and
gender properties absent. -/
theorem detectEmotions_no_face (flags : DetectorFlags)
    (h1 : flags.isInitialized = true) (h2 : flags.modelsLoaded = true) :
    detectEmotions flags (Except.ok []) =
      (Except.ok (some noFaceResult), [LogEvent.logNoFace]) ∧
    noFaceResult.emotions.neutral = 1 ∧ noFaceResult.emotions.happy = 0 ∧
    noFaceResult.emotions.sad = 0 ∧ noFaceResult.emotions.angry = 0 ∧
    noFaceResult.emotions.fearful = 0 ∧ noFaceResult.emotions.disgusted = 0 ∧
    noFaceResult.emotions.surprised = 0 ∧
    noFaceResult.dominant = "neutral" ∧ noFaceResult.confidence = 0 ∧
    noFaceResult.faceDetected = false ∧ noFaceResult.age = none ∧
    noFaceResult.gender = none := by
  rcases flags with ⟨i, m⟩
  cases i
  · cases h1
  · cases m
    · cases h2
    · exact ⟨rfl, rfl, rfl, rfl, rfl, rfl, rfl, rfl, rfl, rfl, rfl, rfl, rfl⟩

/-- C3 witness: the no-face contract evaluated at a ready detector. -/
theorem detectEmotions_no_face_witness :
    detectEmotions { isInitialized := true, modelsLoaded := true } (Except.ok []) =
      (Except.ok (some noFaceResult), [LogEvent.logNoFace]) ∧
    noFaceResult.emotions.neutral = 1 ∧ noFaceResult.emotions.happy = 0 ∧
    noFaceResult.emotions.sad = 0 ∧ noFaceResult.emotions.angry = 0 ∧
    noFaceResult.emotions.fearful = 0 ∧ noFaceResult.emotions.disgusted = 0 ∧
    noFaceResult.emotions.surprised = 0 ∧
    noFaceResult.dominant = "neutral" ∧ noFaceResult.confidence = 0 ∧
    noFaceResult.faceDetected = false ∧ noFaceResult.age = none ∧
    noFaceResult.gender = none :=
  detectEmotions_no_face { isInitialized := true, modelsLoaded := true } rfl rfl

/-- C6: detectEmotions never raises an error to its caller: its outcome is
always `Except.ok`; when the lifecycle flags are not both set it returns the
no-result signal `none` after logging the not-initialized warning; and when
the external capability throws, the exception is caught and converted to
`none` rather than propagating. -/
theorem detectEmotions_never_throws :
    (∀ (flags : DetectorFlags) (cap : Except JsError (List RawDetection)),
      ∃ r, (detectEmotions flags cap).1 = Except.ok r) ∧
    (∀ (m : Bool) (cap : Except JsError (List RawDetection)),
      detectEmotions { isInitialized := false, modelsLoaded := m } cap =
        (Except.ok none, [LogEvent.warnNotReady])) ∧
    (∀ (i : Bool) (cap : Except JsError (List RawDetection)),
      detectEmotions { isInitialized := i, modelsLoaded := false } cap =
        (Except.ok none, [LogEvent.warnNotReady])) ∧
    (∀ (flags : DetectorFlags) (e : JsError),
      (detectEmotions flags (Except.error e)).1 = Except.ok none) := by
  refine ⟨?_, ?_, ?_, ?_⟩
  · intro flags cap
    rcases flags with ⟨i, m⟩
    cases i
    · exact ⟨none, rfl⟩
    · cases m
      · exact ⟨none, rfl⟩
      · rcases cap with e | dets
        · exact ⟨none, rfl⟩
        · rcases dets with _ | ⟨d, l⟩
          · exact ⟨some noFaceResult, rfl⟩
          · exact ⟨_, rfl⟩
  · intro m cap
    rfl
  · intro i cap
    cases i <;> rfl
  · intro flags e
    rcases flags with ⟨i, m⟩
    cases i
    · rfl
    · cases m <;> rfl

/-- C7: for every emotion-score record with a face detected, the dominant
selection returns an entry of the fixed-order `Object.entries` scan (so the
confidence is exactly that entry's score), that entry's score is greater
than or equal to every entry's score, and the chosen entry is the FIRST
entry of the scan attaining the maximum — first-encountered wins on exact
ties, so the selection is deterministic on identical input. -/
theorem findDominant_first_max (e : FaceApiEmotionResult) :
    findDominant e ∈ emotionEntries e ∧
    (∀ p ∈ emotionEntries e, p.2 ≤ (findDominant e).2) ∧
    (emotionEntries e).find? (fun p => decide ((findDominant e).2 ≤ p.2)) =
      some (findDominant e) :=
  ⟨findDominant_mem e, findDominant_ge e, findDominant_find e⟩

/-- C7 witness: on the tie `happy = sad = 1` the selection picks `happy`,
the category earlier in the fixed enumeration order. -/
theorem findDominant_first_max_witness :
    findDominant
        { neutral := 0, happy := 1, sad := 1, angry := 0, fearful := 0,
          disgusted := 0, surprised := 0 } = ("happy", 1) ∧
    findDominant
        { neutral := 0, happy := 1, sad := 1, angry := 0, fearful := 0,
          disgusted := 0, surprised := 0 } ∈
      emotionEntries
        { neutral := 0, happy := 1, sad := 1, angry := 0, fearful := 0,
          disgusted := 0, surprised := 0 } :=
  ⟨by decide,
   (findDominant_first_max
     { neutral := 0, happy := 1, sad := 1, angry := 0, fearful := 0,
       disgusted := 0, surprised := 0 }).1⟩

/-- C8: on every tick whose detection call yields the not-found signal
(`Except.ok none`, covering both a failed call and a not-ready capability),
the previously published EmotionState and additionalData remain unchanged,
nothing is published, and the loop schedules its next tick. -/
theorem transient_failure_keeps_state (s : HookState) (v : VideoElement)
    (now wallClock : ℤ) (cap : Except JsError (List RawDetection))
    (hp : s.detectorPresent = true) (hi : s.isInitialized = true)
    (hv4 : v.readyState = 4) (hw : v.videoWidth ≠ 0) (hh : v.videoHeight ≠ 0)
    (hge : 333 ≤ now - s.lastProcessTime)
    (hD : (detectEmotions s.detectorFlags cap).1 = Except.ok none) :
    (processFrame true (some v) s now wallClock cap).state.emotionState = s.emotionState ∧
    (processFrame true (some v) s now wallClock cap).state.additionalData = s.additionalData ∧
    (processFrame true (some v) s now wallClock cap).state.isInitialized = s.isInitialized ∧
    (processFrame true (some v) s now wallClock cap).published = false ∧
    (processFrame true (some v) s now wallClock cap).didDetect = true ∧
    (processFrame true (some v) s now wallClock cap).scheduled = true := by
  have h := processFrame_detect_none s v now wallClock cap hp hi hv4 hw hh hge hD
  rw [h]
  exact ⟨rfl, rfl, rfl, rfl, rfl, rfl⟩

/-- C8 witness: a throwing capability on a ready tick leaves the published
state bundle untouched and the loop scheduled. -/
theorem transient_failure_keeps_state_witness :
    (processFrame true (some exVideo) exReadyState 1000 1000
      (Except.error { message := "x" })).state.emotionState = exReadyState.emotionState ∧
    (processFrame true (some exVideo) exReadyState 1000 1000
      (Except.error { message := "x" })).state.additionalData = exReadyState.additionalData ∧
    (processFrame true (some exVideo) exReadyState 1000 1000
      (Except.error { message := "x" })).state.isInitialized = exReadyState.isInitialized ∧
    (processFrame true (some exVideo) exReadyState 1000 1000
      (Except.error { message := "x" })).published = false ∧
    (processFrame true (some exVideo) exReadyState 1000 1000
      (Except.error { message := "x" })).didDetect = true ∧
    (processFrame true (some exVideo) exReadyState 1000 1000
      (Except.error { message := "x" })).scheduled = true :=
  transient_failure_keeps_state exReadyState exVideo 1000 1000
    (Except.error { message := "x" }) rfl rfl rfl (by decide) (by decide)
    (by decide) rfl

/-- C5: under a simulated clock, a ready tick whose elapsed time since the
last attempt is below the 333 ms throttle period performs no detection and
only reschedules (state untouched); and over any list of tick times lying in
a window of 1000 ms, the number of detection invocations is at most
5 = 1000/333 rounded up, plus one — whatever the tick spacing (16 ms ticks
included) and whatever the capability returns. -/
theorem throttle_bound :
    (∀ (s : HookState) (v : VideoElement) (now wallClock : ℤ)
        (cap : Except JsError (List RawDetection)),
      s.detectorPresent = true → s.isInitialized = true →
      v.readyState = 4 → v.videoWidth ≠ 0 → v.videoHeight ≠ 0 →
      now - s.lastProcessTime < 333 →
      processFrame true (some v) s now wallClock cap =
        { state := s, didDetect := false, scheduled := true, published := false }) ∧
    (∀ (v : VideoElement) (cap : Except JsError (List RawDetection))
        (ts : List ℤ) (s : HookState) (a : ℤ),
      s.detectorPresent = true → s.isInitialized = true →
      v.readyState = 4 → v.videoWidth ≠ 0 → v.videoHeight ≠ 0 →
      (∀ t ∈ ts, a ≤ t ∧ t ≤ a + 1000) →
      (detectionTimes (some v) cap s ts).length ≤ 5) := by
  constructor
  · intro s v now wallClock cap hp hi hv4 hw hh hlt
    exact processFrame_skip_throttle s v now wallClock cap hp hi hv4 hw hh hlt
  · intro v cap ts s a hp hi hv4 hw hh hwin
    have hchain := detectionTimes_chain v cap hv4 hw hh ts s hp hi
    have hsub := detectionTimes_subset (some v) cap ts s
    have h4 := chain_apart_length (detectionTimes (some v) cap s ts) a hchain
      (fun x hx => hwin x (hsub x hx))
    omega

/-- C5 witness: a tick 100 ms after the last attempt only reschedules; and
driving the loop with 16 ms ticks covering the window 0..992 ms yields at
most 5 detection invocations. -/
theorem throttle_bound_witness :
    processFrame true (some exVideo) exReadyState 100 100 (Except.ok []) =
      { state := exReadyState, didDetect := false, scheduled := true,
        published := false } ∧
    (detectionTimes (some exVideo) (Except.ok []) exReadyState
      ((List.range 63).map (fun k => 16 * (k : ℤ)))).length ≤ 5 :=
  ⟨throttle_bound.1 exReadyState exVideo 100 100 (Except.ok [])
      rfl rfl rfl (by decide) (by decide) (by decide),
   throttle_bound.2 exVideo (Except.ok [])
      ((List.range 63).map (fun k => 16 * (k : ℤ))) exReadyState 0
      rfl rfl rfl (by decide) (by decide) (by decide)⟩

/-- C9 (amended): a call of the detector's init method when the state is
already ready is a no-op success starting no load, and the hook-level guard
makes `initializeDetector` a no-op whenever a detector instance already
exists (it returns at once, without awaiting the in-flight attempt); but the
init method itself, invoked while a load is in flight (flags still clear),
starts a second network load — concurrent calls on the class are NOT
serialized onto the single in-flight attempt. -/
theorem init_entry_facts :
    (∀ m : Bool, initEntry { isInitialized := true, modelsLoaded := m } =
      ({ isInitialized := true, modelsLoaded := m }, false)) ∧
    (∀ flags : DetectorFlags, initDetectorEntry true flags = (true, flags, false)) ∧
    initEntry { isInitialized := false, modelsLoaded := false } =
      ({ isInitialized := false, modelsLoaded := false }, true) ∧
    (initEntry (initEntry { isInitialized := false, modelsLoaded := false }).1).2 = true :=
  ⟨fun _ => rfl, fun _ => rfl, rfl, rfl⟩

/-- C9 counterexample: from fresh flags, the first init call's entry starts
a load and leaves the flags unchanged until the awaited load settles, so a
second call made while that load is in flight passes the `isInitialized`
guard and starts a second network load — refuting the claim that a call
during state `initializing` does not start a second load. -/
theorem initEntry_second_load :
    (initEntry { isInitialized := false, modelsLoaded := false }).2 = true ∧
    (initEntry (initEntry { isInitialized := false, modelsLoaded := false }).1).2 = true :=
  ⟨rfl, rfl⟩

/-- C1 counterexample: the EmotionState published from a no-face
DetectionResult has dominant = "neutral" and confidence = 0 while
scores[dominant] = 1, so `scores[dominant] == confidence` fails on a state
the claim explicitly includes. -/
theorem noFacePublish_confidence_ne_score :
    noFaceTick.published = true ∧
    noFaceTick.state.emotionState.dominant = "neutral" ∧
    noFaceTick.state.emotionState.confidence = 0 ∧
    scoresGet noFaceTick.state.emotionState.scores
      noFaceTick.state.emotionState.dominant = some 1 ∧
    ¬ (scoresGet noFaceTick.state.emotionState.scores
        noFaceTick.state.emotionState.dominant =
      some noFaceTick.state.emotionState.confidence) := by
  decide

/-- C1 (amended): for every EmotionState published by the sampling loop,
the score stored under the NORMALIZED label of `dominant` (raw "disgusted"
is stored under "disgust") is the maximum of the scores mapping; for a
face-detected result the confidence equals exactly that maximum score,
while for the no-face state the dominant is "neutral" whose stored score is
1 but the confidence is 0 (so `scores[dominant] == confidence` holds only
in the face-detected case, and only under the label rename). -/
theorem publish_confidence_eq_normalized_score (isActive : Bool)
    (video : Option VideoElement) (s : HookState) (now wallClock : ℤ)
    (cap : Except JsError (List RawDetection))
    (hpub : (processFrame isActive video s now wallClock cap).published = true) :
    ∃ m : ℚ,
      scoresGet (processFrame isActive video s now wallClock cap).state.emotionState.scores
        (normalizeLabel
          (processFrame isActive video s now wallClock cap).state.emotionState.dominant) =
        some m ∧
      (∀ name q,
        scoresGet (processFrame isActive video s now wallClock cap).state.emotionState.scores
          name = some q → q ≤ m) ∧
      ((processFrame isActive video s now wallClock cap).state.additionalData.faceDetected = true →
        (processFrame isActive video s now wallClock cap).state.emotionState.confidence = m) ∧
      ((processFrame isActive video s now wallClock cap).state.additionalData.faceDetected = false →
        (processFrame isActive video s now wallClock cap).state.emotionState.confidence = 0 ∧
        (processFrame isActive video s now wallClock cap).state.emotionState.dominant = "neutral" ∧
        m = 1) := by
  obtain ⟨r, hok, hst, had⟩ :=
    processFrame_published_inv isActive video s now wallClock cap hpub
  obtain ⟨m, h1, h2, h3, h4, h5, h6⟩ :=
    published_emotion_facts s.detectorFlags cap r wallClock hok
  rw [hst, had]
  exact ⟨m, h1, h2, h3, h4⟩

/-- C1 witness: the amended invariant at the concrete no-face publish. -/
theorem publish_confidence_eq_normalized_score_witness :
    ∃ m : ℚ,
      scoresGet (processFrame true (some exVideo) exReadyState 1000 1000
          (Except.ok [])).state.emotionState.scores
        (normalizeLabel (processFrame true (some exVideo) exReadyState 1000 1000
          (Except.ok [])).state.emotionState.dominant) = some m ∧
      (∀ name q,
        scoresGet (processFrame true (some exVideo) exReadyState 1000 1000
          (Except.ok [])).state.emotionState.scores name = some q → q ≤ m) ∧
      ((processFrame true (some exVideo) exReadyState 1000 1000
          (Except.ok [])).state.additionalData.faceDetected = true →
        (processFrame true (some exVideo) exReadyState 1000 1000
          (Except.ok [])).state.emotionState.confidence = m) ∧
      ((processFrame true (some exVideo) exReadyState 1000 1000
          (Except.ok [])).state.additionalData.faceDetected = false →
        (processFrame true (some exVideo) exReadyState 1000 1000
          (Except.ok [])).state.emotionState.confidence = 0 ∧
        (processFrame true (some exVideo) exReadyState 1000 1000
          (Except.ok [])).state.emotionState.dominant = "neutral" ∧
        m = 1) :=
  publish_confidence_eq_normalized_score true (some exVideo) exReadyState
    1000 1000 (Except.ok []) (by decide)

/-- C2 counterexample: feeding the loop a detection whose strongest raw
expression is "disgusted" yields a published EmotionState whose `dominant`
field is the raw label "disgusted", which is NOT a member of the closed
EmotionCategory set — the rename to "disgust" is applied to the score
record key only, not to the `dominant` field. -/
theorem publish_dominant_not_closed :
    disgustTick.published = true ∧
    disgustTick.state.emotionState.dominant = "disgusted" ∧
    isEmotionCategory disgustTick.state.emotionState.dominant = false ∧
    disgustTick.state.emotionState.scores.disgust = 1 := by
  decide

/-- C2 (amended): for every DetectionResult the loop publishes, the
categories of the published score record form exactly the closed
EmotionCategory set (raw "disgusted" is stored under "disgust"), and the
`dominant` field is in the closed set after the disgusted→disgust rename;
the raw `dominant` field itself escapes the closed set precisely when it is
the raw label "disgusted". -/
theorem publish_categories_closed (isActive : Bool) (video : Option VideoElement)
    (s : HookState) (now wallClock : ℤ) (cap : Except JsError (List RawDetection))
    (hpub : (processFrame isActive video s now wallClock cap).published = true) :
    (∀ name : String,
      (scoresGet (processFrame isActive video s now wallClock cap).state.emotionState.scores
        name).isSome = true ↔ isEmotionCategory name = true) ∧
    isEmotionCategory
      (normalizeLabel
        (processFrame isActive video s now wallClock cap).state.emotionState.dominant) =
      true ∧
    (isEmotionCategory
        (processFrame isActive video s now wallClock cap).state.emotionState.dominant =
        false ↔
      (processFrame isActive video s now wallClock cap).state.emotionState.dominant =
        "disgusted") := by
  obtain ⟨r, hok, hst, had⟩ :=
    processFrame_published_inv isActive video s now wallClock cap hpub
  obtain ⟨m, h1, h2, h3, h4, h5, h6⟩ :=
    published_emotion_facts s.detectorFlags cap r wallClock hok
  rw [hst]
  exact ⟨fun name => scoresGet_isSome _ name, h5, h6⟩

/-- C2 witness: the amended normalization contract at the concrete
disgusted-dominated publish. -/
theorem publish_categories_closed_witness :
    (∀ name : String,
      (scoresGet (processFrame true (some exVideo) exReadyState 1000 1000
        (Except.ok [exDisgustDetection])).state.emotionState.scores
        name).isSome = true ↔ isEmotionCategory name = true) ∧
    isEmotionCategory
      (normalizeLabel
        (processFrame true (some exVideo) exReadyState 1000 1000
          (Except.ok [exDisgustDetection])).state.emotionState.dominant) = true ∧
    (isEmotionCategory
        (processFrame true (some exVideo) exReadyState 1000 1000
          (Except.ok [exDisgustDetection])).state.emotionState.dominant = false ↔
      (processFrame true (some exVideo) exReadyState 1000 1000
        (Except.ok [exDisgustDetection])).state.emotionState.dominant = "disgusted") :=
  publish_categories_closed true (some exVideo) exReadyState 1000 1000
    (Except.ok [exDisgustDetection]) (by decide)

/-- C10 (amended): every DetectionResult returned with faceDetected = true
carries a present age and a present gender: the age is the external
capability's age defaulted to 0 when absent and rounded — non-negative
whenever the capability's age estimate is non-negative, but copied without
clamping, so it is NOT unconditionally non-negative — and the gender is the
capability's gender string defaulted to "unknown" when absent or empty; in
particular the published gender is never the empty string. -/
theorem face_result_age_gender (flags : DetectorFlags)
    (cap : Except JsError (List RawDetection)) (r : FaceApiDetectionResult)
    (hok : (detectEmotions flags cap).1 = Except.ok (some r))
    (hface : r.faceDetected = true) :
    (∃ a : ℤ, r.age = some a) ∧
    (∃ g : String, r.gender = some g ∧ g ≠ "") ∧
    (∀ d l, cap = Except.ok (d :: l) →
      r.age = some (jsRound (orZero d.age)) ∧
      r.gender = some (orUnknown d.gender) ∧
      ((∀ q ∈ d.age, (0:ℚ) ≤ q) → ∀ a : ℤ, r.age = some a → 0 ≤ a)) := by
  rcases detectEmotions_ok_some flags cap r hok with hno | ⟨d, l2, hcap, hr⟩
  · rw [hno] at hface
    exact absurd hface (by decide)
  · subst hr
    refine ⟨⟨jsRound (orZero d.age), rfl⟩,
      ⟨orUnknown d.gender, rfl, orUnknown_ne_empty d.gender⟩, ?_⟩
    intro d2 l3 hcap2
    rw [hcap] at hcap2
    injection hcap2 with h
    injection h with h1 h2
    subst h1
    refine ⟨rfl, rfl, ?_⟩
    intro hq a ha
    injection ha with ha2
    rw [← ha2]
    exact jsRound_nonneg _ (orZero_nonneg d.age hq)

/-- C10 witness: the amended age/gender contract at a concrete detection
carrying age 25 and the falsy empty-string gender (published as
"unknown"). -/
theorem face_result_age_gender_witness :
    (∃ a : ℤ, exFaceResult.age = some a) ∧
    (∃ g : String, exFaceResult.gender = some g ∧ g ≠ "") ∧
    (∀ d l, (Except.ok [exAgeDetection] : Except JsError (List RawDetection)) =
        Except.ok (d :: l) →
      exFaceResult.age = some (jsRound (orZero d.age)) ∧
      exFaceResult.gender = some (orUnknown d.gender) ∧
      ((∀ q ∈ d.age, (0:ℚ) ≤ q) → ∀ a : ℤ, exFaceResult.age = some a → 0 ≤ a)) :=
  face_result_age_gender { isInitialized := true, modelsLoaded := true }
    (Except.ok [exAgeDetection]) exFaceResult rfl rfl

theorem jsRound_neg_five : jsRound (-5) = -5 := by
  rw [jsRound, Int.floor_eq_iff]
  constructor <;> norm_num

/-- C10 counterexample: the external capability reporting a negative age
estimate (-5) makes `detectEmotions` return a face-detected result whose
published age is the negative integer -5 — `Math.round(detection.age || 0)`
is applied without clamping, so the age field is not unconditionally
non-negative as the claim states. -/
theorem face_result_age_negative :
    (detectEmotions { isInitialized := true, modelsLoaded := true }
      (Except.ok [exNegAgeDetection])).1 = Except.ok (some exNegAgeResult) ∧
    exNegAgeResult.faceDetected = true ∧
    exNegAgeResult.age = some (-5) ∧
    ¬ (∀ a : ℤ, exNegAgeResult.age = some a → 0 ≤ a) := by
  have hage : exNegAgeResult.age = some (-5) := by
    show some (jsRound (orZero (some (-5)))) = some (-5)
    rw [show orZero (some (-5)) = -5 from rfl, jsRound_neg_five]
  refine ⟨rfl, rfl, hage, ?_⟩
  intro hall
  have h := hall (-5) hage
  exact absurd h (by decide)
